import Mathlib

/-
Verification of the point-tracking lifecycle controller embedded in the
FlowLK optical-flow tutorial module (src/doc/ProgrammerInvFlowLK.dox,
Python class FlowLK), and of the Arduino serial-line parser
(src/doc/snip/ardublink.C).

The FlowLK module's `process()` is a per-frame step function over the
instance state (self.color, self.old_gray, self.p0, self.mask).  The two
external OpenCV collaborators are modelled through their interface
contracts: the feature detector's natural output list (truncated at
maxCorners by goodFeaturesToTrack) and the tracker's per-point result
(None on total failure, otherwise per-point locations with status flags,
index-aligned with the prior points).  Image rasters are modelled freely:
a frame is an opaque camera image plus the drawing operations applied to
it, and the trail mask is its dimensions plus the list of line segments
drawn into it since it was last allocated.  The fps text overlay
(cv2.putText of the timer string) is telemetry applied uniformly to every
outgoing frame and is not part of the model.
-/

namespace FlowLK

/- Coordinates of tracked points.  The source stores float pixel
coordinates but never computes with them; the claims only move them
around and compare them, so integer coordinates represent the fragment
used. -/
abbrev Point := Int × Int

/- A BGR color triple, as one row of self.color. -/
abbrev RGB := Nat × Nat × Nat

/- One line segment drawn into the trail mask by
cv2.line(self.mask, (a,b), (c,d), self.color[i].tolist(), 2):
(a,b) is the point's new location, (c,d) its previous location. -/
structure Seg where
  pNew : Point
  pOld : Point
  col : RGB
deriving DecidableEq, Repr

/- The trail mask self.mask: its raster dimensions and the segments drawn
into it since np.zeros_like allocated it. -/
structure Mask where
  dims : Nat × Nat
  segs : List Seg
deriving DecidableEq, Repr

/- A blank mask, np.zeros_like(frame): same dimensions, nothing drawn. -/
def Mask.blank (d : Nat × Nat) : Mask := ⟨d, []⟩

/- A color frame: an opaque camera image (inframe.getCvBGR(), numbered by
arrival) together with the drawing operations applied to it.  circle is
cv2.circle(frame, (a,b), 5, color, -1); withMask is
cv2.add(frame, self.mask). -/
inductive Img where
  | cam (n : Nat) (dims : Nat × Nat)
  | circle (base : Img) (center : Point) (radius : Nat) (col : RGB)
  | withMask (base : Img) (m : Mask)
deriving DecidableEq, Repr

/- Raster dimensions of a frame; drawing does not change them. -/
def Img.size : Img → Nat × Nat
  | .cam _ d => d
  | .circle b _ _ _ => b.size
  | .withMask b _ => b.size

/- The marker circles drawn onto a frame, in drawing order:
(center, radius, color). -/
def Img.circles : Img → List (Point × Nat × RGB)
  | .cam _ _ => []
  | .circle b c r col => b.circles ++ [(c, r, col)]
  | .withMask b _ => b.circles

/- The mask composited on top of a frame by the outermost cv2.add, if
the frame's last drawing operation was a composite. -/
def Img.topMask : Img → Option Mask
  | .withMask _ m => some m
  | _ => none

/- A grayscale image, cv2.cvtColor(frame, cv2.COLOR_BGR2GRAY). -/
inductive Gray where
  | ofImg (f : Img)
deriving DecidableEq, Repr

/- feature_params maxCorners: the detector returns at most this many
points (self.feature_params in __init__). -/
def maxCorners : Nat := 100

/- Result of cv2.calcOpticalFlowPyrLK, through its interface contract:
fail is p1 being None (total correspondence failure); ok l pairs each
returned location p1[i] with its status flag st[i] == 1, index-aligned
with the prior points p0. -/
inductive TrackResult where
  | fail
  | ok (l : List (Point × Bool))
deriving DecidableEq, Repr

/- The FlowLK instance state across process() calls.
color is self.color, the 100 random colors fixed in __init__;
old_gray is self.old_gray, with none standing for the attribute being
absent (not hasattr(self, 'old_gray'));
p0 is self.p0 (kept even after `del self.old_gray`, as in the source,
where it is simply never read again before being overwritten);
mask is self.mask (none before the first frame ever). -/
structure St where
  color : List RGB
  old_gray : Option Gray
  p0 : List Point
  mask : Option Mask
deriving DecidableEq, Repr

/- The state right after __init__: the color table exists, no old_gray
attribute, no points, no mask. -/
def initState (color : List RGB) : St := ⟨color, none, [], none⟩

/- The explicit lifecycle state of the spec's data model: TRACKING
exactly when self.old_gray exists. -/
inductive TrackState where
  | UNINITIALIZED
  | TRACKING
deriving DecidableEq, Repr

/- Lifecycle state read off the instance state, mirroring the source's
hasattr(self, 'old_gray') test. -/
def trackState (s : St) : TrackState :=
  if s.old_gray.isSome then .TRACKING else .UNINITIALIZED

/- The active PointSet of the spec's data model: the point set exists
only while a reference frame exists; self.p0 is never consulted while
old_gray is absent. -/
def activePoints (s : St) : Option (List Point) :=
  match s.old_gray with
  | some _ => some s.p0
  | none => none

/- The drawing loop
  for i,(new, old) in enumerate(zip(good_new, good_old)):
      self.mask = cv2.line(self.mask, (a,b),(c,d), self.color[i].tolist(), 2)
      frame = cv2.circle(frame, (a,b), 5, self.color[i].tolist(), -1)
over the zipped survivor pairs (new, old), threading the mask and the
frame and counting i up.  self.color[i] is color.getD i; the index stays
below the color table's length in every reachable state (proved below),
so the default is never read. -/
def drawTracksAux (color : List RGB) : Nat → List (Point × Point) → Mask → Img → Mask × Img
  | _, [], m, f => (m, f)
  | i, (pn, po) :: rest, m, f =>
      drawTracksAux color (i + 1) rest
        ⟨m.dims, m.segs ++ [⟨pn, po, color.getD i (0, 0, 0)⟩]⟩
        (.circle f pn 5 (color.getD i (0, 0, 0)))

/- The segments the drawing loop appends to the mask, starting at
index i. -/
def segsFrom (color : List RGB) : Nat → List (Point × Point) → List Seg
  | _, [] => []
  | i, (pn, po) :: rest => ⟨pn, po, color.getD i (0, 0, 0)⟩ :: segsFrom color (i + 1) rest

/- The marker circles the drawing loop draws onto the frame, starting at
index i. -/
def circsFrom (color : List RGB) : Nat → List (Point × Point) → List (Point × Nat × RGB)
  | _, [] => []
  | i, (pn, _) :: rest => (pn, 5, color.getD i (0, 0, 0)) :: circsFrom color (i + 1) rest

/- One process(inframe, outframe) call.  frame is the grabbed camera
image; natural is the feature detector's natural output for this frame
(goodFeaturesToTrack keeps at most maxCorners of it, per its contract),
consulted only on the acquisition branch; tr is the tracker's result,
consulted only on the tracking branch.  Returns the new instance state
and the frame handed to outframe.sendCv. -/
def process (s : St) (frame : Img) (natural : List Point) (tr : TrackResult) : St × Img :=
  match s.old_gray with
  | none =>
      -- if not hasattr(self, 'old_gray'): detect, allocate blank mask
      ⟨⟨s.color, some (.ofImg frame), natural.take maxCorners, some (Mask.blank frame.size)⟩,
        frame⟩
  | some _ =>
      let frame_gray := Gray.ofImg frame
      match tr with
      | .fail =>
          -- if p1 is None: composite mask, del self.old_gray
          ⟨⟨s.color, none, s.p0, s.mask⟩,
            Img.withMask frame (s.mask.getD (Mask.blank frame.size))⟩
      | .ok l =>
          -- good_new = p1[st==1]; good_old = self.p0[st==1]
          let good_new := (l.filter (fun pb => pb.2)).map (fun pb => pb.1)
          let good_old :=
            ((s.p0.zip (l.map (fun pb => pb.2))).filter (fun pb => pb.2)).map (fun pb => pb.1)
          let m0 := s.mask.getD (Mask.blank frame.size)
          let r := drawTracksAux s.color 0 (good_new.zip good_old) m0 frame
          ⟨⟨s.color, some frame_gray, good_new, some r.1⟩, Img.withMask r.2 r.1⟩

/- The per-frame oracle answers driving one process call: the camera
frame, the detector's natural output and the tracker's result. -/
structure Input where
  frame : Img
  natural : List Point
  tr : TrackResult
deriving DecidableEq, Repr

/- A run of process over a list of frames. -/
def run (s : St) : List Input → St
  | [] => s
  | i :: rest => run (process s i.frame i.natural i.tr).1 rest

/- Interface-contract wellformedness of a run's oracle answers: whenever
the tracking branch is taken and the tracker does not fail, its result
is index-aligned 1:1 with the prior points (the calcOpticalFlowPyrLK
contract the source relies on). -/
def wfInputs : St → List Input → Bool
  | _, [] => true
  | s, i :: rest =>
      (match s.old_gray, i.tr with
       | some _, .ok l => l.length == s.p0.length
       | _, _ => true)
      && wfInputs (process s i.frame i.natural i.tr).1 rest

/- Lifting trackState = UNINITIALIZED back to the hasattr test. -/
theorem old_gray_eq_none_of_uninit (s : St) (h : trackState s = .UNINITIALIZED) :
    s.old_gray = none := by
  cases hog : s.old_gray with
  | none => rfl
  | some g => simp [trackState, hog] at h

/-- C7: Initialization: on any valid first frame (state UNINITIALIZED), process
detects features, stores the grayscale of the frame as the reference frame,
allocates a blank trail mask sized to the frame, transitions to TRACKING,
returns the input frame with no drawing applied, and the resulting point set
length is min(maxCorners, the detector's natural output length). -/
theorem flowlk_initialization (s : St) (f : Img) (natural : List Point) (tr : TrackResult)
    (h : trackState s = .UNINITIALIZED) :
    process s f natural tr =
      (⟨s.color, some (.ofImg f), natural.take maxCorners, some (Mask.blank f.size)⟩, f)
    ∧ trackState (process s f natural tr).1 = .TRACKING
    ∧ (process s f natural tr).1.p0.length = min maxCorners natural.length := by
  have hog := old_gray_eq_none_of_uninit s h
  refine ⟨?_, ?_, ?_⟩ <;> simp [process, hog, trackState, List.length_take]

/-- C7 witness: the initialization theorem evaluated on a concrete first frame
with a two-point detector output. -/
theorem flowlk_initialization_witness :
    trackState (initState [(5, 5, 5)]) = .UNINITIALIZED
    ∧ (process (initState [(5, 5, 5)]) (.cam 0 (320, 240))
          [((10 : Int), (10 : Int)), (20, 20)] .fail =
        (⟨[(5, 5, 5)], some (.ofImg (.cam 0 (320, 240))),
            [((10 : Int), (10 : Int)), (20, 20)].take maxCorners,
            some (Mask.blank (Img.cam 0 (320, 240)).size)⟩, .cam 0 (320, 240))
      ∧ trackState (process (initState [(5, 5, 5)]) (.cam 0 (320, 240))
            [((10 : Int), (10 : Int)), (20, 20)] .fail).1 = .TRACKING
      ∧ (process (initState [(5, 5, 5)]) (.cam 0 (320, 240))
            [((10 : Int), (10 : Int)), (20, 20)] .fail).1.p0.length =
          min maxCorners [((10 : Int), (10 : Int)), (20, 20)].length) :=
  ⟨by decide, flowlk_initialization _ _ _ _ (by decide)⟩

/-- C3: Total-failure handling on the loss frame: when the tracker reports
total failure (p1 is None) while TRACKING, the controller drops the reference
frame and the active point set (the lifecycle state returns to UNINITIALIZED),
returns the current frame with the trail mask composited onto it, and leaves
the trail mask itself untouched (not cleared on this call). -/
theorem flowlk_total_failure (s : St) (g : Gray) (m : Mask) (f : Img) (natural : List Point)
    (hg : s.old_gray = some g) (hm : s.mask = some m) :
    trackState (process s f natural .fail).1 = .UNINITIALIZED
    ∧ activePoints (process s f natural .fail).1 = none
    ∧ (process s f natural .fail).2 = Img.withMask f m
    ∧ (process s f natural .fail).1.mask = some m := by
  refine ⟨?_, ?_, ?_, ?_⟩ <;> simp [process, hg, hm, trackState, activePoints]

/-- C3 witness: the total-failure theorem evaluated on a concrete TRACKING
state whose mask already holds one segment. -/
theorem flowlk_total_failure_witness :
    (St.mk [(1, 2, 3)] (some (.ofImg (.cam 0 (4, 4)))) [((10 : Int), (10 : Int))]
        (some ⟨(4, 4), [⟨(11, 11), (10, 10), (1, 2, 3)⟩]⟩)).old_gray =
      some (.ofImg (.cam 0 (4, 4)))
    ∧ (St.mk [(1, 2, 3)] (some (.ofImg (.cam 0 (4, 4)))) [((10 : Int), (10 : Int))]
        (some ⟨(4, 4), [⟨(11, 11), (10, 10), (1, 2, 3)⟩]⟩)).mask =
      some ⟨(4, 4), [⟨(11, 11), (10, 10), (1, 2, 3)⟩]⟩
    ∧ (trackState (process (St.mk [(1, 2, 3)] (some (.ofImg (.cam 0 (4, 4))))
          [((10 : Int), (10 : Int))] (some ⟨(4, 4), [⟨(11, 11), (10, 10), (1, 2, 3)⟩]⟩))
          (.cam 1 (4, 4)) [] .fail).1 = .UNINITIALIZED
      ∧ activePoints (process (St.mk [(1, 2, 3)] (some (.ofImg (.cam 0 (4, 4))))
          [((10 : Int), (10 : Int))] (some ⟨(4, 4), [⟨(11, 11), (10, 10), (1, 2, 3)⟩]⟩))
          (.cam 1 (4, 4)) [] .fail).1 = none
      ∧ (process (St.mk [(1, 2, 3)] (some (.ofImg (.cam 0 (4, 4))))
          [((10 : Int), (10 : Int))] (some ⟨(4, 4), [⟨(11, 11), (10, 10), (1, 2, 3)⟩]⟩))
          (.cam 1 (4, 4)) [] .fail).2 =
        Img.withMask (.cam 1 (4, 4)) ⟨(4, 4), [⟨(11, 11), (10, 10), (1, 2, 3)⟩]⟩
      ∧ (process (St.mk [(1, 2, 3)] (some (.ofImg (.cam 0 (4, 4))))
          [((10 : Int), (10 : Int))] (some ⟨(4, 4), [⟨(11, 11), (10, 10), (1, 2, 3)⟩]⟩))
          (.cam 1 (4, 4)) [] .fail).1.mask =
        some ⟨(4, 4), [⟨(11, 11), (10, 10), (1, 2, 3)⟩]⟩) :=
  ⟨rfl, rfl, flowlk_total_failure _ _ _ _ _ rfl rfl⟩

/-- C4: Total-loss recovery: from any state produced by a tracker total
failure, the next process call on a fresh frame is indistinguishable from the
very first call ever made on a freshly constructed instance with the same
color table (full reacquisition), and in particular the trail mask is reset to
blank only at that reacquisition call. -/
theorem flowlk_loss_recovery (s : St) (g : Gray) (f fr : Img) (nat0 natr : List Point)
    (tr : TrackResult) (hg : s.old_gray = some g) :
    process (process s f nat0 .fail).1 fr natr tr = process (initState s.color) fr natr tr
    ∧ (process (process s f nat0 .fail).1 fr natr tr).1.mask =
        some (Mask.blank fr.size) := by
  constructor <;> simp [process, hg, initState]

/-- C4 witness: the loss-recovery theorem evaluated on a concrete lost state
and fresh frame. -/
theorem flowlk_loss_recovery_witness :
    (St.mk [(1, 2, 3)] (some (.ofImg (.cam 0 (4, 4)))) [((10 : Int), (10 : Int))]
        (some (Mask.blank (4, 4)))).old_gray = some (.ofImg (.cam 0 (4, 4)))
    ∧ (process (process (St.mk [(1, 2, 3)] (some (.ofImg (.cam 0 (4, 4))))
          [((10 : Int), (10 : Int))] (some (Mask.blank (4, 4)))) (.cam 1 (4, 4)) [] .fail).1
          (.cam 2 (4, 4)) [((7 : Int), (7 : Int))] .fail =
        process (initState (St.mk [(1, 2, 3)] (some (.ofImg (.cam 0 (4, 4))))
          [((10 : Int), (10 : Int))] (some (Mask.blank (4, 4)))).color)
          (.cam 2 (4, 4)) [((7 : Int), (7 : Int))] .fail
      ∧ (process (process (St.mk [(1, 2, 3)] (some (.ofImg (.cam 0 (4, 4))))
          [((10 : Int), (10 : Int))] (some (Mask.blank (4, 4)))) (.cam 1 (4, 4)) [] .fail).1
          (.cam 2 (4, 4)) [((7 : Int), (7 : Int))] .fail).1.mask =
        some (Mask.blank (Img.cam 2 (4, 4)).size)) :=
  ⟨by decide, flowlk_loss_recovery _ _ _ _ _ _ _ rfl⟩

/- The drawing loop appends segsFrom to the mask's segment list and keeps
the raster dimensions. -/
theorem drawTracksAux_fst (color : List RGB) :
    ∀ (pairs : List (Point × Point)) (i : Nat) (m : Mask) (f : Img),
      (drawTracksAux color i pairs m f).1 = ⟨m.dims, m.segs ++ segsFrom color i pairs⟩
  | [], i, m, f => by simp [drawTracksAux, segsFrom]
  | (pn, po) :: rest, i, m, f => by
      simp [drawTracksAux, segsFrom, drawTracksAux_fst color rest (i + 1)]

/- The drawing loop draws circsFrom onto the frame, after whatever was
already there. -/
theorem drawTracksAux_snd_circles (color : List RGB) :
    ∀ (pairs : List (Point × Point)) (i : Nat) (m : Mask) (f : Img),
      (drawTracksAux color i pairs m f).2.circles = f.circles ++ circsFrom color i pairs
  | [], i, m, f => by simp [drawTracksAux, circsFrom]
  | (pn, po) :: rest, i, m, f => by
      simp [drawTracksAux, circsFrom, Img.circles, drawTracksAux_snd_circles color rest (i + 1)]

/-- C6: Partial-result step: in TRACKING, when the tracker returns per-point
(location, valid) answers, the new point set is exactly the valid locations in
their input order, the old points are filtered by the same flags, each
survivor pair gets one segment appended to the trail mask and one marker
circle drawn at the new location on the output frame, the mask is composited
on top of the output frame, the reference frame becomes the current grayscale
frame, and the controller remains in TRACKING. -/
theorem flowlk_partial_step (s : St) (g : Gray) (m : Mask) (f : Img) (natural : List Point)
    (l : List (Point × Bool)) (hg : s.old_gray = some g) (hm : s.mask = some m) :
    let good_new := (l.filter (fun pb => pb.2)).map (fun pb => pb.1)
    let good_old :=
      ((s.p0.zip (l.map (fun pb => pb.2))).filter (fun pb => pb.2)).map (fun pb => pb.1)
    let r := process s f natural (.ok l)
    r.1.p0 = good_new
    ∧ r.1.old_gray = some (Gray.ofImg f)
    ∧ trackState r.1 = .TRACKING
    ∧ r.1.mask = some ⟨m.dims, m.segs ++ segsFrom s.color 0 (good_new.zip good_old)⟩
    ∧ r.2.topMask = r.1.mask
    ∧ r.2.circles = f.circles ++ circsFrom s.color 0 (good_new.zip good_old) := by
  refine ⟨?_, ?_, ?_, ?_, ?_, ?_⟩ <;>
    simp [process, hg, hm, trackState, Img.topMask, Img.circles,
      drawTracksAux_fst, drawTracksAux_snd_circles]

/-- C6 witness: the partial-step theorem evaluated on a concrete TRACKING
state with two points, the first surviving and the second dropped. -/
theorem flowlk_partial_step_witness :
    (St.mk [(1, 1, 1), (2, 2, 2)] (some (.ofImg (.cam 1 (4, 4))))
        [((10 : Int), (10 : Int)), (20, 20)] (some (Mask.blank (4, 4)))).old_gray =
      some (.ofImg (.cam 1 (4, 4)))
    ∧ (St.mk [(1, 1, 1), (2, 2, 2)] (some (.ofImg (.cam 1 (4, 4))))
        [((10 : Int), (10 : Int)), (20, 20)] (some (Mask.blank (4, 4)))).mask =
      some (Mask.blank (4, 4))
    ∧ (let good_new :=
        (([((11, 11), true), ((0, 0), false)] : List (Point × Bool)).filter
          (fun pb => pb.2)).map (fun pb => pb.1)
      let good_old :=
        (((St.mk [(1, 1, 1), (2, 2, 2)] (some (.ofImg (.cam 1 (4, 4))))
            [((10 : Int), (10 : Int)), (20, 20)] (some (Mask.blank (4, 4)))).p0.zip
          (([((11, 11), true), ((0, 0), false)] : List (Point × Bool)).map
            (fun pb => pb.2))).filter (fun pb => pb.2)).map (fun pb => pb.1)
      let r := process (St.mk [(1, 1, 1), (2, 2, 2)] (some (.ofImg (.cam 1 (4, 4))))
        [((10 : Int), (10 : Int)), (20, 20)] (some (Mask.blank (4, 4))))
        (.cam 2 (4, 4)) [] (.ok [((11, 11), true), ((0, 0), false)])
      r.1.p0 = good_new
      ∧ r.1.old_gray = some (Gray.ofImg (.cam 2 (4, 4)))
      ∧ trackState r.1 = .TRACKING
      ∧ r.1.mask = some ⟨(Mask.blank (4, 4)).dims, (Mask.blank (4, 4)).segs ++
          segsFrom (St.mk [(1, 1, 1), (2, 2, 2)] (some (.ofImg (.cam 1 (4, 4))))
            [((10 : Int), (10 : Int)), (20, 20)] (some (Mask.blank (4, 4)))).color 0
            (good_new.zip good_old)⟩
      ∧ r.2.topMask = r.1.mask
      ∧ r.2.circles = (Img.cam 2 (4, 4)).circles ++
          circsFrom (St.mk [(1, 1, 1), (2, 2, 2)] (some (.ofImg (.cam 1 (4, 4))))
            [((10 : Int), (10 : Int)), (20, 20)] (some (Mask.blank (4, 4)))).color 0
            (good_new.zip good_old)) :=
  ⟨rfl, rfl, flowlk_partial_step _ _ _ _ _ _ rfl rfl⟩

/- A concrete admissible value of self.color (np.random.randint can return
any 100 rows; this one makes all rows distinct). -/
def colors100 : List RGB := (List.range 100).map (fun i => (i, 0, 0))

/-- C2 counterexample: colors are looked up by the point's current index in
the survivor list, not attached to the point at acquisition.  The point
acquired at (20,20) survives two consecutive successful track steps, moving
to (21,21) and then (22,22); its first trail segment is drawn with
color[1] = (1,0,0) but, after the earlier-indexed point is dropped, its
second segment is drawn with color[0] = (0,0,0), so the claim's single
acquisition-time color is violated. -/
theorem flowlk_color_stability_cex :
    let s1 := (process (initState colors100) (.cam 1 (4, 4))
      [((10 : Int), (10 : Int)), (20, 20)] .fail).1
    let s2 := (process s1 (.cam 2 (4, 4)) []
      (.ok [((11, 11), true), ((21, 21), true)])).1
    let s3 := (process s2 (.cam 3 (4, 4)) []
      (.ok [((0, 0), false), ((22, 22), true)])).1
    s2.mask = some ⟨(4, 4), [⟨(11, 11), (10, 10), (0, 0, 0)⟩,
                             ⟨(21, 21), (20, 20), (1, 0, 0)⟩]⟩
    ∧ s3.mask = some ⟨(4, 4), [⟨(11, 11), (10, 10), (0, 0, 0)⟩,
                               ⟨(21, 21), (20, 20), (1, 0, 0)⟩,
                               ⟨(22, 22), (21, 21), (0, 0, 0)⟩]⟩
    ∧ ((1, 0, 0) : RGB) ≠ (0, 0, 0) := by
  refine ⟨by decide, by decide, by decide⟩

/-- C2 amended: the drawing color is self.color[i] where i is the point's
current index in the survivor list, so a surviving point keeps its color
exactly while that index is unchanged; in particular, in a step where every
point survives, the new point set stays index-aligned with the old one and
the i-th survivor's segment is drawn with color[i], so colors are stable
across steps in which no earlier-indexed point is dropped. -/
theorem flowlk_color_by_index (s : St) (g : Gray) (m : Mask) (f : Img) (natural : List Point)
    (l : List (Point × Bool)) (hg : s.old_gray = some g) (hm : s.mask = some m)
    (hlen : l.length = s.p0.length) (hall : l.all (fun pb => pb.2) = true) :
    (process s f natural (.ok l)).1.p0 = l.map (fun pb => pb.1)
    ∧ (process s f natural (.ok l)).1.mask =
        some ⟨m.dims, m.segs ++
          segsFrom s.color 0 ((l.map (fun pb => pb.1)).zip s.p0)⟩ := by
  have hmem := List.all_eq_true.mp hall
  have hfil : l.filter (fun pb => pb.2) = l :=
    List.filter_eq_self.mpr (fun a ha => hmem a ha)
  have hfil2 : (s.p0.zip (l.map (fun pb => pb.2))).filter (fun pb => pb.2) =
      s.p0.zip (l.map (fun pb => pb.2)) := by
    refine List.filter_eq_self.mpr ?_
    rintro ⟨a, b⟩ hab
    have hb : b ∈ l.map (fun pb => pb.2) := (List.of_mem_zip hab).2
    obtain ⟨pb, hpb, rfl⟩ := List.mem_map.mp hb
    exact hmem pb hpb
  have hold : ((s.p0.zip (l.map (fun pb => pb.2))).filter (fun pb => pb.2)).map
      (fun pb => pb.1) = s.p0 := by
    rw [hfil2]
    exact List.map_fst_zip _ _ (by simp [hlen])
  constructor <;> simp [process, hg, hm, drawTracksAux_fst, hfil, hold]

/-- C2 amended witness: the color-by-index theorem evaluated on a concrete
two-point TRACKING state with both points surviving. -/
theorem flowlk_color_by_index_witness :
    (St.mk [(1, 1, 1), (2, 2, 2)] (some (.ofImg (.cam 1 (4, 4))))
        [((10 : Int), (10 : Int)), (20, 20)] (some (Mask.blank (4, 4)))).old_gray =
      some (.ofImg (.cam 1 (4, 4)))
    ∧ ([((11, 11), true), ((21, 21), true)] : List (Point × Bool)).length =
        (St.mk [(1, 1, 1), (2, 2, 2)] (some (.ofImg (.cam 1 (4, 4))))
          [((10 : Int), (10 : Int)), (20, 20)] (some (Mask.blank (4, 4)))).p0.length
    ∧ (([((11, 11), true), ((21, 21), true)] : List (Point × Bool)).all
        (fun pb => pb.2) = true)
    ∧ ((process (St.mk [(1, 1, 1), (2, 2, 2)] (some (.ofImg (.cam 1 (4, 4))))
          [((10 : Int), (10 : Int)), (20, 20)] (some (Mask.blank (4, 4))))
          (.cam 2 (4, 4)) [] (.ok [((11, 11), true), ((21, 21), true)])).1.p0 =
        ([((11, 11), true), ((21, 21), true)] : List (Point × Bool)).map (fun pb => pb.1)
      ∧ (process (St.mk [(1, 1, 1), (2, 2, 2)] (some (.ofImg (.cam 1 (4, 4))))
          [((10 : Int), (10 : Int)), (20, 20)] (some (Mask.blank (4, 4))))
          (.cam 2 (4, 4)) [] (.ok [((11, 11), true), ((21, 21), true)])).1.mask =
        some ⟨(Mask.blank (4, 4)).dims, (Mask.blank (4, 4)).segs ++
          segsFrom (St.mk [(1, 1, 1), (2, 2, 2)] (some (.ofImg (.cam 1 (4, 4))))
            [((10 : Int), (10 : Int)), (20, 20)] (some (Mask.blank (4, 4)))).color 0
          ((([((11, 11), true), ((21, 21), true)] : List (Point × Bool)).map
              (fun pb => pb.1)).zip
            (St.mk [(1, 1, 1), (2, 2, 2)] (some (.ofImg (.cam 1 (4, 4))))
              [((10 : Int), (10 : Int)), (20, 20)] (some (Mask.blank (4, 4)))).p0)⟩) :=
  ⟨rfl, by decide, by decide, flowlk_color_by_index _ _ _ _ _ _ rfl rfl (by decide) (by decide)⟩

/-- C1 counterexample: the colors sequence self.color is a fixed 100-row
table created in the constructor and is never re-filtered; after the first
acquisition the active point set has 2 points while the colors sequence
still has 100 entries, so len(points) == len(colors) fails while TRACKING. -/
theorem flowlk_index_alignment_cex :
    let s1 := (process (initState colors100) (.cam 1 (4, 4))
      [((10 : Int), (10 : Int)), (20, 20)] .fail).1
    trackState s1 = .TRACKING
    ∧ s1.p0.length = 2
    ∧ s1.color.length = 100
    ∧ s1.p0.length ≠ s1.color.length := by
  refine ⟨by decide, by decide, by decide, by decide⟩

/- process never touches self.color. -/
theorem process_color (s : St) (f : Img) (natural : List Point) (tr : TrackResult) :
    (process s f natural tr).1.color = s.color := by
  cases hog : s.old_gray with
  | none => simp [process, hog]
  | some g => cases tr <;> simp [process, hog]

/- A whole run never touches self.color. -/
theorem run_color : ∀ (inputs : List Input) (s : St), (run s inputs).color = s.color
  | [], s => rfl
  | i :: rest, s => by
      rw [run, run_color rest, process_color]

/- Point-count invariant: along any contract-respecting run, the point set
never grows beyond maxCorners: acquisition truncates at maxCorners and a
partial-result step only filters. -/
theorem run_p0_le : ∀ (inputs : List Input) (s : St),
    s.p0.length ≤ maxCorners → wfInputs s inputs = true →
    (run s inputs).p0.length ≤ maxCorners
  | [], _, hle, _ => hle
  | i :: rest, s, hle, hwf => by
      simp only [wfInputs, Bool.and_eq_true] at hwf
      obtain ⟨h1, h2⟩ := hwf
      refine run_p0_le rest _ ?_ h2
      cases hog : s.old_gray with
      | none =>
          simp only [process, hog, List.length_take]
          omega
      | some g =>
          cases htr : i.tr with
          | fail => simpa [process, hog] using hle
          | ok l =>
              rw [hog, htr] at h1
              have hlen : l.length = s.p0.length := by
                simpa using h1
              simp only [process, hog, List.length_map]
              calc (l.filter (fun pb => pb.2)).length
                  ≤ l.length := List.length_filter_le _ _
                _ = s.p0.length := hlen
                _ ≤ maxCorners := hle

/-- C1 amended: the colors sequence is the fixed 100-row table created in the
constructor; it is never re-filtered, and instead the alignment that actually
holds is len(PointSet) ≤ len(colors) = 100 after any contract-respecting
sequence of advance calls, so every active point index has a color. -/
theorem flowlk_index_alignment_amended (color : List RGB) (inputs : List Input)
    (hc : color.length = 100) (hwf : wfInputs (initState color) inputs = true) :
    (run (initState color) inputs).p0.length ≤ (run (initState color) inputs).color.length
    ∧ (run (initState color) inputs).color.length = 100 := by
  have hcol : (run (initState color) inputs).color = color := run_color inputs _
  have hp0 : (run (initState color) inputs).p0.length ≤ maxCorners :=
    run_p0_le inputs _ (by simp [initState, maxCorners]) hwf
  rw [hcol, hc]
  exact ⟨le_trans hp0 (by simp [maxCorners]), rfl⟩

/-- C1 amended witness: the amended alignment bound evaluated on a concrete
two-call run. -/
theorem flowlk_index_alignment_amended_witness :
    colors100.length = 100
    ∧ wfInputs (initState colors100)
        [⟨.cam 1 (4, 4), [((10 : Int), (10 : Int)), (20, 20)], .fail⟩,
         ⟨.cam 2 (4, 4), [], .ok [((11, 11), true), ((0, 0), false)]⟩] = true
    ∧ ((run (initState colors100)
          [⟨.cam 1 (4, 4), [((10 : Int), (10 : Int)), (20, 20)], .fail⟩,
           ⟨.cam 2 (4, 4), [], .ok [((11, 11), true), ((0, 0), false)]⟩]).p0.length ≤
        (run (initState colors100)
          [⟨.cam 1 (4, 4), [((10 : Int), (10 : Int)), (20, 20)], .fail⟩,
           ⟨.cam 2 (4, 4), [], .ok [((11, 11), true), ((0, 0), false)]⟩]).color.length
      ∧ (run (initState colors100)
          [⟨.cam 1 (4, 4), [((10 : Int), (10 : Int)), (20, 20)], .fail⟩,
           ⟨.cam 2 (4, 4), [], .ok [((11, 11), true), ((0, 0), false)]⟩]).color.length = 100) :=
  ⟨by decide, by decide, flowlk_index_alignment_amended _ _ (by decide) (by decide)⟩

/-- C9: Point-count bound: a partial-result step filters, so the point set
length never increases across a successful track step, and along any
contract-respecting run from a fresh instance the point set length never
exceeds the acquisition bound maxCorners = 100. -/
theorem flowlk_point_count_bound (s : St) (g : Gray) (f : Img) (natural : List Point)
    (l : List (Point × Bool)) (color : List RGB) (inputs : List Input)
    (hg : s.old_gray = some g) (hlen : l.length = s.p0.length)
    (hwf : wfInputs (initState color) inputs = true) :
    (process s f natural (.ok l)).1.p0.length ≤ s.p0.length
    ∧ (run (initState color) inputs).p0.length ≤ maxCorners := by
  constructor
  · simp only [process, hg, List.length_map]
    calc (l.filter (fun pb => pb.2)).length
        ≤ l.length := List.length_filter_le _ _
      _ = s.p0.length := hlen
  · exact run_p0_le inputs _ (by simp [initState, maxCorners]) hwf

/-- C9 witness: the point-count bound evaluated on a concrete step that drops
one of two points, and a concrete two-call run. -/
theorem flowlk_point_count_bound_witness :
    (St.mk colors100 (some (.ofImg (.cam 1 (4, 4))))
        [((10 : Int), (10 : Int)), (20, 20)] (some (Mask.blank (4, 4)))).old_gray =
      some (.ofImg (.cam 1 (4, 4)))
    ∧ ([((11, 11), true), ((0, 0), false)] : List (Point × Bool)).length =
        (St.mk colors100 (some (.ofImg (.cam 1 (4, 4))))
          [((10 : Int), (10 : Int)), (20, 20)] (some (Mask.blank (4, 4)))).p0.length
    ∧ wfInputs (initState colors100)
        [⟨.cam 1 (4, 4), [((10 : Int), (10 : Int)), (20, 20)], .fail⟩] = true
    ∧ ((process (St.mk colors100 (some (.ofImg (.cam 1 (4, 4))))
          [((10 : Int), (10 : Int)), (20, 20)] (some (Mask.blank (4, 4))))
          (.cam 2 (4, 4)) [] (.ok [((11, 11), true), ((0, 0), false)])).1.p0.length ≤
        (St.mk colors100 (some (.ofImg (.cam 1 (4, 4))))
          [((10 : Int), (10 : Int)), (20, 20)] (some (Mask.blank (4, 4)))).p0.length
      ∧ (run (initState colors100)
          [⟨.cam 1 (4, 4), [((10 : Int), (10 : Int)), (20, 20)], .fail⟩]).p0.length ≤
        maxCorners) :=
  ⟨rfl, by decide, by decide,
    flowlk_point_count_bound _ _ _ _ _ _ _ rfl (by decide) (by decide)⟩

/-- C8 counterexample: after a zero-point acquisition the controller is in
TRACKING with an empty point set, and on the subsequent call it does NOT
reacquire: the tracking branch runs, and when the tracker returns an empty
per-point sequence (the aligned answer for an empty prior set) the controller
stays in TRACKING with an empty point set instead of detecting the fresh
point offered by the detector. -/
theorem flowlk_empty_acquisition_cex :
    wfInputs (initState colors100)
      [⟨.cam 1 (4, 4), [], .fail⟩, ⟨.cam 2 (4, 4), [((10 : Int), (10 : Int))], .ok []⟩] = true
    ∧ trackState (run (initState colors100)
        [⟨.cam 1 (4, 4), [], .fail⟩, ⟨.cam 2 (4, 4), [((10 : Int), (10 : Int))], .ok []⟩]) =
      .TRACKING
    ∧ (run (initState colors100)
        [⟨.cam 1 (4, 4), [], .fail⟩, ⟨.cam 2 (4, 4), [((10 : Int), (10 : Int))], .ok []⟩]).p0 = []
    ∧ (run (initState colors100)
        [⟨.cam 1 (4, 4), [], .fail⟩, ⟨.cam 2 (4, 4), [((10 : Int), (10 : Int))], .ok []⟩]).p0 ≠
      [((10 : Int), (10 : Int))].take maxCorners := by
  refine ⟨by decide, by decide, by decide, by decide⟩

/-- C8 amended: advance never fails and always returns a frame; a zero-point
detection yields TRACKING with an empty point set; on the subsequent call the
controller reacquires only if the tracker reports total failure there, while
a tracker answer of an empty per-point sequence leaves it in TRACKING with an
empty point set (no reacquisition). -/
theorem flowlk_empty_acquisition_amended (s : St) (f f2 : Img) (natural : List Point)
    (tr : TrackResult) (h : s.old_gray = none) :
    (process s f [] tr).1.p0 = []
    ∧ trackState (process s f [] tr).1 = .TRACKING
    ∧ (process s f [] tr).2 = f
    ∧ trackState (process (process s f [] tr).1 f2 natural .fail).1 = .UNINITIALIZED
    ∧ trackState (process (process s f [] tr).1 f2 natural (.ok [])).1 = .TRACKING
    ∧ (process (process s f [] tr).1 f2 natural (.ok [])).1.p0 = [] := by
  refine ⟨?_, ?_, ?_, ?_, ?_, ?_⟩ <;>
    simp [process, h, trackState, drawTracksAux]

/-- C8 amended witness: the empty-acquisition theorem evaluated on a fresh
instance and concrete frames. -/
theorem flowlk_empty_acquisition_amended_witness :
    (initState colors100).old_gray = none
    ∧ ((process (initState colors100) (.cam 1 (4, 4)) [] .fail).1.p0 = []
      ∧ trackState (process (initState colors100) (.cam 1 (4, 4)) [] .fail).1 = .TRACKING
      ∧ (process (initState colors100) (.cam 1 (4, 4)) [] .fail).2 = .cam 1 (4, 4)
      ∧ trackState (process (process (initState colors100) (.cam 1 (4, 4)) [] .fail).1
          (.cam 2 (4, 4)) [((10 : Int), (10 : Int))] .fail).1 = .UNINITIALIZED
      ∧ trackState (process (process (initState colors100) (.cam 1 (4, 4)) [] .fail).1
          (.cam 2 (4, 4)) [((10 : Int), (10 : Int))] (.ok [])).1 = .TRACKING
      ∧ (process (process (initState colors100) (.cam 1 (4, 4)) [] .fail).1
          (.cam 2 (4, 4)) [((10 : Int), (10 : Int))] (.ok [])).1.p0 = []) :=
  ⟨rfl, flowlk_empty_acquisition_amended _ _ _ _ _ rfl⟩

/-- C5 counterexample: at the claim's own inputs, the number of colors is
never 2 after frame 1 nor 1 after frame 2: the code keeps the fixed 100-row
color table self.color throughout and never assigns a 2-element or 1-element
colors sequence, so the claim's "2 colors assigned" and "1 color" conjuncts
are false while its point-set conjuncts hold. -/
theorem flowlk_scenario_cex :
    let s1 := (process (initState colors100) (.cam 1 (320, 240))
      [((10 : Int), (10 : Int)), (20, 20)] .fail).1
    let r2 := process s1 (.cam 2 (320, 240)) [] (.ok [((11, 11), true), ((0, 0), false)])
    s1.p0 = [((10 : Int), (10 : Int)), (20, 20)]
    ∧ s1.color.length ≠ 2
    ∧ r2.1.p0 = [((11 : Int), (11 : Int))]
    ∧ r2.1.color.length ≠ 1 := by
  refine ⟨by decide, by decide, by decide, by decide⟩

/-- C5 amended: concrete three-frame scenario with the colors sequence as the
code keeps it: frame 1 detects [(10,10),(20,20)], giving TRACKING with those
2 points while the colors sequence remains the fixed 100-row table (the two
points are coloured by indices 0 and 1); frame 2's tracker keeps only the
first point at (11,11), so the surviving set is [(11,11)], drawn with
color[0] — the original color of the first point — with the colors table
still 100 rows, and the trail mask gains one segment connecting (10,10) and
(11,11); frame 3's total failure returns to UNINITIALIZED and the returned
frame still has that trail composited. -/
theorem flowlk_scenario (color : List RGB) (hc : color.length = 100) :
    let s1 := (process (initState color) (.cam 1 (320, 240))
      [((10 : Int), (10 : Int)), (20, 20)] .fail).1
    let r2 := process s1 (.cam 2 (320, 240)) [] (.ok [((11, 11), true), ((0, 0), false)])
    let r3 := process r2.1 (.cam 3 (320, 240)) [] .fail
    trackState s1 = .TRACKING
    ∧ s1.p0 = [((10 : Int), (10 : Int)), (20, 20)]
    ∧ s1.p0.length = 2
    ∧ s1.color.length = 100
    ∧ r2.1.p0 = [((11 : Int), (11 : Int))]
    ∧ r2.1.p0.length = 1
    ∧ r2.1.color.length = 100
    ∧ r2.1.mask = some ⟨(320, 240), [⟨(11, 11), (10, 10), color.getD 0 (0, 0, 0)⟩]⟩
    ∧ trackState r3.1 = .UNINITIALIZED
    ∧ r3.2 = Img.withMask (.cam 3 (320, 240))
        ⟨(320, 240), [⟨(11, 11), (10, 10), color.getD 0 (0, 0, 0)⟩]⟩ := by
  have htake : ([((10 : Int), (10 : Int)), (20, 20)] : List Point).take maxCorners =
      [((10 : Int), (10 : Int)), (20, 20)] :=
    List.take_of_length_le (by simp [maxCorners])
  refine ⟨?_, ?_, ?_, ?_, ?_, ?_, ?_, ?_, ?_, ?_⟩ <;>
    simp [process, initState, trackState, htake, drawTracksAux, Mask.blank, Img.size, hc]

/-- C5 amended witness: the scenario theorem evaluated at a concrete 100-row
color table. -/
theorem flowlk_scenario_witness :
    (List.replicate 100 ((9 : Nat), (9 : Nat), (9 : Nat))).length = 100
    ∧ (let s1 := (process (initState (List.replicate 100 ((9 : Nat), (9 : Nat), (9 : Nat))))
        (.cam 1 (320, 240)) [((10 : Int), (10 : Int)), (20, 20)] .fail).1
      let r2 := process s1 (.cam 2 (320, 240)) [] (.ok [((11, 11), true), ((0, 0), false)])
      let r3 := process r2.1 (.cam 3 (320, 240)) [] .fail
      trackState s1 = .TRACKING
      ∧ s1.p0 = [((10 : Int), (10 : Int)), (20, 20)]
      ∧ s1.p0.length = 2
      ∧ s1.color.length = 100
      ∧ r2.1.p0 = [((11 : Int), (11 : Int))]
      ∧ r2.1.p0.length = 1
      ∧ r2.1.color.length = 100
      ∧ r2.1.mask = some ⟨(320, 240),
          [⟨(11, 11), (10, 10),
            (List.replicate 100 ((9 : Nat), (9 : Nat), (9 : Nat))).getD 0 (0, 0, 0)⟩]⟩
      ∧ trackState r3.1 = .UNINITIALIZED
      ∧ r3.2 = Img.withMask (.cam 3 (320, 240))
          ⟨(320, 240), [⟨(11, 11), (10, 10),
            (List.replicate 100 ((9 : Nat), (9 : Nat), (9 : Nat))).getD 0 (0, 0, 0)⟩]⟩) :=
  ⟨by decide, flowlk_scenario _ (by decide)⟩

end FlowLK

namespace Ardu

/-
Model of the Arduino sketch src/doc/snip/ardublink.C.  loop() reads one
serial line (SERIAL.readBytesUntil delivers at most INLEN bytes, up to a
newline), tokenizes it with strtok(instr, " \r\n"), runs the token state
machine, and finally drives the LED pin: LOW (LED on, inverted logic)
exactly when the final state is 2.
-/

/- CATEGORY, the ImageNet category name the sketch looks for. -/
def CATEGORY : List Char := "computer_keyboard".toList

/- INLEN, the serial receive buffer size. -/
def INLEN : Nat := 256

/- strtok's delimiter set " \r\n". -/
def isDelim (c : Char) : Bool := c == ' ' || c == '\r' || c == '\n'

/- The token sequence strtok produces over the buffer: the maximal runs of
non-delimiter characters, in order, skipping empty runs. -/
def tokenize (l : List Char) : List (List Char) :=
  (l.splitOnP isDelim).filter (fun t => !t.isEmpty)

/- The case-1 scan `i = strlen(tok) - 1; while (i >= 0 && tok[i] != ':') --i;`:
the index of the LAST ':' in the token, if any. -/
def lastColon (t : List Char) : Option Nat :=
  let k := t.reverse.findIdx (fun c => c == ':')
  if k < t.length then some (t.length - 1 - k) else none

/- Writing a NUL at the last ':' (tok[i] = 0) truncates the C string there;
without a ':' the token is left whole. -/
def truncAtColon (t : List Char) : List Char :=
  match lastColon t with
  | some i => t.take i
  | none => t

/- One iteration of the switch (state) on one token. -/
def stepState (st : Nat) (tok : List Char) : Nat :=
  match st with
  | 0 => if tok = "DO".toList then 1 else 1000
  | 1 => if truncAtColon tok = CATEGORY then 2 else 1
  | s => s

/- The while (tok) loop over the whole token sequence. -/
def scanTokens : Nat → List (List Char) → Nat
  | st, [] => st
  | st, tok :: rest => scanTokens (stepState st tok) rest

/- One loop() iteration on the received bytes of one line: true means the
LED pin is driven LOW (LED on, inverted logic), i.e. the parse ended in
state 2.  `byte len = SERIAL.readBytesUntil(..., INLEN)` reads at most
INLEN bytes of the line and stores the count into a uint8_t, so a full
256-byte read wraps len to 0; `instr[len] = 0` then terminates the C
string at that index, and strtok parses only the first len bytes. -/
def ledOn (line : List Char) : Bool :=
  scanTokens 0 (tokenize (line.take (min line.length INLEN % 256))) == 2

/- State 2 is absorbing: once a hit is found, later tokens do nothing. -/
theorem scanTokens_two : ∀ toks, scanTokens 2 toks = 2
  | [] => rfl
  | _ :: rest => scanTokens_two rest

/- State 1000 is absorbing: a line not starting with DO can never hit. -/
theorem scanTokens_thousand : ∀ toks, scanTokens 1000 toks = 1000
  | [] => rfl
  | _ :: rest => scanTokens_thousand rest

/- From state 1 the parse ends in state 2 exactly when some remaining token,
truncated at its last ':', equals CATEGORY. -/
theorem scanTokens_one : ∀ toks : List (List Char),
    scanTokens 1 toks = 2 ↔ ∃ t ∈ toks, truncAtColon t = CATEGORY
  | [] => by simp [scanTokens]
  | tok :: rest => by
      by_cases hm : truncAtColon tok = CATEGORY
      · simp [scanTokens, stepState, hm, scanTokens_two]
      · simp [scanTokens, stepState, hm, scanTokens_one rest]

set_option maxRecDepth 40000 in
/-- C10 counterexample: a line of exactly INLEN = 256 bytes whose tokens are
["DO", "computer_keyboard"] — first token "DO", a subsequent token equal to
the configured category — yet the LED is driven HIGH: readBytesUntil returns
256, the uint8_t len wraps to 0, instr[0] = 0 makes the parsed C string
empty, and the state machine never leaves state 0. -/
theorem ardublink_led_cex :
    ("DO computer_keyboard".toList ++ List.replicate 236 ' ').length = INLEN
    ∧ tokenize ("DO computer_keyboard".toList ++ List.replicate 236 ' ') =
        ["DO".toList, "computer_keyboard".toList]
    ∧ truncAtColon "computer_keyboard".toList = CATEGORY
    ∧ ledOn ("DO computer_keyboard".toList ++ List.replicate 236 ' ') = false := by
  refine ⟨by decide, by decide, by decide, by decide⟩

/-- C10 amended: for a received line strictly shorter than the INLEN = 256
byte buffer (a line filling the buffer exactly wraps the uint8_t byte count
to zero and is parsed as an empty line, driving the pin HIGH), one loop()
iteration drives the LED pin LOW (LED on, inverted logic) if and only if the
line's first whitespace-separated token is exactly "DO" and some subsequent
token, truncated at its last ':' when one is present, equals the configured
category "computer_keyboard"; otherwise the pin is driven HIGH.  The
right-to-left direction also shows that once state 2 is reached, later
non-matching tokens cannot revoke the hit within the same line. -/
theorem ardublink_led (line : List Char) (h : line.length < INLEN) :
    ledOn line = true ↔
      ∃ ts, tokenize line = "DO".toList :: ts ∧ ∃ t ∈ ts, truncAtColon t = CATEGORY := by
  have hmin : min line.length INLEN % 256 = line.length := by
    rw [Nat.min_eq_left (Nat.le_of_lt h)]
    exact Nat.mod_eq_of_lt h
  unfold ledOn
  rw [hmin, List.take_length]
  cases htok : tokenize line with
  | nil => simp [scanTokens]
  | cons t0 ts =>
      by_cases hdo : t0 = "DO".toList
      · subst hdo
        simp [scanTokens, stepState, scanTokens_one ts]
      · have hdo2 : t0 ≠ ('D' :: 'O' :: []) := by simpa using hdo
        simp [scanTokens, stepState, hdo2, scanTokens_thousand]

/-- C10 amended witness: the parser theorem evaluated on the concrete line
"DO computer_keyboard:0.84". -/
theorem ardublink_led_witness :
    ("DO computer_keyboard:0.84".toList.length < INLEN)
    ∧ (ledOn "DO computer_keyboard:0.84".toList = true ↔
        ∃ ts, tokenize "DO computer_keyboard:0.84".toList = "DO".toList :: ts
          ∧ ∃ t ∈ ts, truncAtColon t = CATEGORY) :=
  ⟨by decide, ardublink_led _ (by decide)⟩

end Ardu
